import Mathlib

/-!
Shallow embedding of the alert scheduling and evaluation engine of
server.js (BreathWise AQI alert server): the threshold evaluation inlined
in checkAqiAndSendAlert, the per-firing runner orchestration, the cron
rebuild in setupCronJobs, and the validation in the POST alert handler.

JavaScript numbers that matter to the control flow are modelled as ℚ
(finite values) together with an explicit NaN constructor where NaN can
arise (parseFloat); the AQI index delivered by the provider payload is an
integer. Stateful scheduler code is modelled by explicit state passing on
a task-list state; exceptions are modelled with Except or an explicit
outcome constructor.
-/

deriving instance DecidableEq for Except

namespace AqiServer

/-- Model of a JavaScript value as it can appear in a JSON request field. -/
inductive JsValue where
  | vnum (q : ℚ)
  | vnan
  | vstr (s : String)
  | vnull
  | vundefined
deriving DecidableEq, Repr

/-- JavaScript truthiness of a request field value: 0, NaN, the empty
string, null and undefined are falsy. -/
def JsValue.truthy : JsValue → Bool
  | .vnum q => q != 0
  | .vnan => false
  | .vstr s => s != ""
  | .vnull => false
  | .vundefined => false

/-- Result type of parseFloat: a finite double or NaN. -/
inductive JsNumber where
  | finite (q : ℚ)
  | nan
deriving DecidableEq, Repr

/-- Numeric value of a list of decimal digit characters. -/
def digitsVal (cs : List Char) : Nat :=
  cs.foldl (fun a c => a * 10 + (c.toNat - 48)) 0

/-- Leading decimal literal of a character list, as parseFloat reads it:
an optional sign, an integer part and an optional fractional part, any
trailing garbage ignored; NaN when no digit is found. (Exponent forms and
the Infinity literal, which no claim exercises, are outside the model.) -/
def parseFloatChars (cs : List Char) : JsNumber :=
  let signRest : ℚ × List Char :=
    match cs with
    | '-' :: r => (-1, r)
    | '+' :: r => (1, r)
    | r => (1, r)
  let intPart := signRest.2.takeWhile Char.isDigit
  let rest := signRest.2.dropWhile Char.isDigit
  let fracPart :=
    match rest with
    | '.' :: r => r.takeWhile Char.isDigit
    | _ => []
  if intPart.isEmpty && fracPart.isEmpty then .nan
  else .finite (signRest.1 *
    ((digitsVal intPart : ℚ) + (digitsVal fracPart : ℚ) / ((10 : ℚ) ^ fracPart.length)))

/-- Model of the JavaScript parseFloat applied to a request field value:
non-strings are coerced to their string image first, so null, undefined
and NaN all parse to NaN, while a finite number round-trips. -/
def jsParseFloat : JsValue → JsNumber
  | .vnum q => .finite q
  | .vstr s => parseFloatChars s.toList
  | _ => .nan

/-- Request body of POST /alert as the handler destructures it. -/
structure AlertRequest where
  alertTime : JsValue
  pollutant : JsValue
  threshold : JsValue
  alertEmail : JsValue
deriving DecidableEq, Repr

/-- Row the handler passes to prisma.alert.create. -/
structure StoredAlert where
  userId : String
  alertTime : JsValue
  pollutant : JsValue
  threshold : JsNumber
  alertEmail : JsValue
deriving DecidableEq, Repr

/-- Error message of the 400 response of POST /alert. -/
def missingDetailsMsg : String :=
  "Missing required alert details (Time, Pollutant, Threshold, Email)."

/-- Embedding of the POST /alert handler body (server.js lines 219 to 244):
reject with a 400 when any of the four destructured fields is falsy,
otherwise store the row with threshold := parseFloat(threshold). -/
def postAlert (userId : String) (req : AlertRequest) : Except String StoredAlert :=
  if req.alertTime.truthy && req.pollutant.truthy
      && req.threshold.truthy && req.alertEmail.truthy then
    .ok { userId := userId
          alertTime := req.alertTime
          pollutant := req.pollutant
          threshold := jsParseFloat req.threshold
          alertEmail := req.alertEmail }
  else
    .error missingDetailsMsg

/-- Alert rule snapshot as checkAqiAndSendAlert destructures its argument. -/
structure Alert where
  id : String
  userId : String
  alertTime : String
  pollutant : String
  threshold : ℚ
  alertEmail : String
deriving DecidableEq, Repr

/-- Verdict of one threshold evaluation: the triggered flag, the mail
subject and the mail body (htmlContent). -/
structure Verdict where
  triggered : Bool
  subject : String
  body : String
deriving DecidableEq, Repr

/-- String image of an integer-valued JavaScript number inside a template
literal. -/
def jsIntStr (n : ℤ) : String := toString n

/-- String image of a JavaScript number inside a template literal;
integral values print without a fractional part as in JavaScript (every
claim evaluates this at integral values only). -/
def numStr (q : ℚ) : String :=
  if q.den = 1 then toString q.num else toString q

/-- Threshold evaluation step of checkAqiAndSendAlert (server.js lines 93
to 121): the strict comparison currentAqiValue > threshold selects the
subject and the htmlContent template, both branches interpolating the
index and the threshold into the body. -/
def evaluate (userName : String) (alertTime : String)
    (currentAqiValue : ℤ) (threshold : ℚ) : Verdict :=
  if (currentAqiValue : ℚ) > threshold then
    { triggered := true
      subject := "🔴 AQI Alert: High Pollution Detected!"
      body :=
        "\n            <p>Hello " ++ userName ++ ",</p>\n            <h3 style=\"color: #b91c1c;\">The Air Quality Index (AQI) is high.</h3>\n            <p>Current AQI: <span style=\"font-weight: bold; font-size: 1.1em;\">"
        ++ jsIntStr currentAqiValue
        ++ "</span> (Threshold: "
        ++ numStr threshold
        ++ ")</p>\n            <p>We recommend you **do not go outdoors** or limit your outdoor activities significantly.</p>\n            <p class=\"small\">Alert time: "
        ++ alertTime
        ++ " (Location: New Delhi).</p>\n        " }
  else
    { triggered := false
      subject := "🟢 AQI Alert: Safe to Go Outside!"
      body :=
        "\n            <p>Hello " ++ userName ++ ",</p>\n            <h3 style=\"color: #3b5d46;\">Air quality is currently good or moderate.</h3>\n            <p>Current AQI: <span style=\"font-weight: bold; font-size: 1.1em;\">"
        ++ jsIntStr currentAqiValue
        ++ "</span> (Threshold: "
        ++ numStr threshold
        ++ ")</p>\n            <p>It is generally safe for you to **go outdoors** for your planned activity.</p>\n            <p class=\"small\">Alert time: "
        ++ alertTime
        ++ " (Location: New Delhi).</p>\n        " }

/-! Scheduler model (setupCronJobs, server.js lines 148 to 165).

The node-cron registry is modelled as a list of tasks, each carrying its
pattern, the bound alert snapshot and a running flag; task.stop() clears
the flag but the handle stays in the registry, exactly as
cron.getTasks() keeps returning stopped tasks. cron.schedule throws on an
invalid pattern; the throw escapes the forEach, so the registry mutations
made before it persist. -/

/-- One node-cron task handle. -/
structure CronTask where
  pattern : String
  alert : Alert
  running : Bool
deriving DecidableEq, Repr

/-- The node-cron global registry, as cron.getTasks() exposes it. -/
structure SchedulerState where
  tasks : List CronTask
deriving DecidableEq, Repr

/-- Tasks of the registry that are currently running. -/
def SchedulerState.activeTasks (st : SchedulerState) : List CronTask :=
  st.tasks.filter (fun t => t.running)

/-- Digits-only parse of a cron field token; none when the token is empty
or holds a non-digit. -/
def parseNatDigits (s : String) : Option Nat :=
  if s.length > 0 && s.toList.all Char.isDigit then
    some (digitsVal s.toList)
  else none

/-- Validity of a bare numeric cron field against its maximal value, the
form the patterns built by setupCronJobs use for minute and hour. -/
def validCronField (maxVal : Nat) (s : String) : Bool :=
  match parseNatDigits s with
  | some n => decide (n ≤ maxVal)
  | none => false

/-- Validity of the constructed pattern minute hour, the condition under
which cron.schedule accepts instead of throwing. -/
def validCronPattern (minuteF hourF : String) : Bool :=
  validCronField 59 minuteF && validCronField 23 hourF

/-- Splitting a character list at every colon, the recursion behind the
JavaScript split: the result always has at least one element, and the
empty string splits to a singleton empty piece. -/
def splitColonChars : List Char → List (List Char)
  | [] => [[]]
  | c :: rest =>
    let r := splitColonChars rest
    if c = ':' then [] :: r
    else
      match r with
      | [] => [[c]]
      | h :: t => (c :: h) :: t

/-- The JavaScript alertTime.split of a colon. -/
def jsSplitColon (s : String) : List String :=
  (splitColonChars s.toList).map (fun cs => String.mk cs)

/-- Destructuring const brackets hour minute of alertTime.split of a
colon: the JavaScript split always yields a first element, and a missing
second element reads as undefined, which stringifies to "undefined" in
the template. -/
def hourMinute (alertTime : String) : String × String :=
  let parts := jsSplitColon alertTime
  (parts.headD "undefined", (parts.drop 1).headD "undefined")

/-- Cron pattern string built for one alert: minute hour star star star. -/
def cronPatternOf (a : Alert) : String :=
  (hourMinute a.alertTime).2 ++ " " ++ (hourMinute a.alertTime).1 ++ " * * *"

/-- Fire-time well-formedness of an alert: the constructed pattern is one
cron.schedule accepts. -/
def wellFormedFireTime (a : Alert) : Bool :=
  validCronPattern (hourMinute a.alertTime).2 (hourMinute a.alertTime).1

/-- Task that scheduling one alert registers. -/
def mkTask (a : Alert) : CronTask :=
  { pattern := cronPatternOf a, alert := a, running := true }

/-- Effect of cron.getTasks().forEach(task => task.stop()): every handle
stays registered, none keeps running. -/
def stopAll (st : SchedulerState) : SchedulerState :=
  { tasks := st.tasks.map (fun t => { t with running := false }) }

/-- The alerts.forEach loop of setupCronJobs: schedule each alert in
order; an invalid pattern makes cron.schedule throw, which aborts the
loop at that alert with the registry mutations so far kept. Returns the
final registry and the escaped error, if any. -/
def scheduleAll : SchedulerState → List Alert → SchedulerState × Option String
  | st, [] => (st, none)
  | st, a :: rest =>
    if wellFormedFireTime a then
      scheduleAll { tasks := st.tasks ++ [mkTask a] } rest
    else
      (st, some (cronPatternOf a ++ " is not a valid cron expression"))

/-- Embedding of setupCronJobs (server.js lines 148 to 165): first stop
every registered task, then await the rule listing — whose outcome is the
store parameter — and schedule each returned alert. A listing failure
rejects after the stop-all already happened; a bad pattern aborts the
loop mid-way. -/
def setupCronJobs (st : SchedulerState) (store : Except String (List Alert)) :
    SchedulerState × Option String :=
  let st1 := stopAll st
  match store with
  | .error e => (st1, some e)
  | .ok alerts => scheduleAll st1 alerts

/-! Runner model (checkAqiAndSendAlert, server.js lines 64 to 145). -/

/-- Row joined by the findUnique select at the start of a firing: the
owning user name (nullable in the schema) together with the remaining
columns of the current database row of the alert, which the firing code
never reads (the select pulls only user.name and alertEmail, and the
fetched alertEmail is itself unused: line 78 uses the snapshot field). -/
structure DbAlertRow where
  userName : Option String
  alertEmail : String
  threshold : ℚ
  alertTime : String
deriving DecidableEq, Repr

/-- Outer main object of one provider payload entry. -/
structure AqiMain where
  aqi : ℤ
deriving DecidableEq, Repr

/-- One entry of the list field of the provider payload. -/
structure AqiEntry where
  main : AqiMain
deriving DecidableEq, Repr

/-- Outcome of the fetch of the provider URL during one firing. -/
inductive FetchOutcome where
  | networkError (msg : String)
  | badStatus (code : Nat)
  | jsonError (msg : String)
  | payload (list? : Option (List AqiEntry))
deriving DecidableEq, Repr

/-- Steps inside the try block of step 2: a rejected fetch, a non-ok
response (which the code turns into a thrown Error) and a rejected json
parse are all caught; a parsed payload is returned. -/
def fetchAqi : FetchOutcome → Except String (Option (List AqiEntry))
  | .networkError m => .error m
  | .badStatus c => .error ("OpenWeather API fetch failed with status " ++ toString c ++ ".")
  | .jsonError m => .error m
  | .payload l => .ok l

/-- Reading aqiData.list[0].main.aqi on line 91, outside the try block: a
missing list field or an empty list makes the member access throw a
TypeError that nothing catches. -/
def extractAqi : Option (List AqiEntry) → Except String ℤ
  | none => .error "TypeError: Cannot read properties of undefined (reading 0)"
  | some l =>
    match l.head? with
    | none => .error "TypeError: Cannot read properties of undefined (reading main)"
    | some e => .ok e.main.aqi

/-- JavaScript a || b over an optional string: null, undefined and the
empty string all fall through to the default. -/
def jsOrDefault (s : Option String) (d : String) : String :=
  match s with
  | some n => if n == "" then d else n
  | none => d

/-- External outcomes one firing can observe: the findUnique result (a
rejection, no row, or the current row), the fetch outcome, whether a
Resend client was configured, and the outcome resend.emails.send would
report (error branch or an id). -/
structure RunnerEnv where
  dbLookup : Except String (Option DbAlertRow)
  fetchOutcome : FetchOutcome
  resendConfigured : Bool
  sendOutcome : Except String String
deriving Repr

/-- One attempted notifier invocation, with the to, subject and html
fields passed to resend.emails.send. -/
structure SendRequest where
  toAddr : String
  subject : String
  html : String
deriving DecidableEq, Repr

/-- Terminal outcome of one firing, each constructor matching one logged
terminal line of the code, plus a constructor for an exception escaping
the async function uncaught. -/
inductive RunnerOutcome where
  | threw (msg : String)
  | alertNotFound
  | fetchFailed (msg : String)
  | emailSent (toAddr : String)
  | sendFailed (msg : String)
  | sendSkipped (toAddr : String)
deriving DecidableEq, Repr

/-- Observable result of one firing: the notifier invocations attempted,
in order, and the terminal outcome. -/
structure RunnerResult where
  sends : List SendRequest
  outcome : RunnerOutcome
deriving DecidableEq, Repr

/-- Embedding of checkAqiAndSendAlert (server.js lines 64 to 145) on the
alert snapshot captured at rebuild time: look the row up (an early return
when absent, an uncaught rejection when the query fails), default the
user name, fetch the reading (caught failure aborts with a log), read the
index off the payload (uncaught throw on a shape mismatch), evaluate, and
dispatch at most one email when a client is configured, logging a send
error without retry, or log the skip when none is. -/
def checkAqiAndSendAlert (env : RunnerEnv) (alert : Alert) : RunnerResult :=
  match env.dbLookup with
  | .error e => { sends := [], outcome := .threw e }
  | .ok none => { sends := [], outcome := .alertNotFound }
  | .ok (some row) =>
    let userName := jsOrDefault row.userName "User"
    let recipientEmail := alert.alertEmail
    match fetchAqi env.fetchOutcome with
    | .error msg => { sends := [], outcome := .fetchFailed msg }
    | .ok list? =>
      match extractAqi list? with
      | .error msg => { sends := [], outcome := .threw msg }
      | .ok currentAqiValue =>
        let v := evaluate userName alert.alertTime currentAqiValue alert.threshold
        if env.resendConfigured then
          let req : SendRequest :=
            { toAddr := recipientEmail, subject := v.subject, html := v.body }
          match env.sendOutcome with
          | .error e => { sends := [req], outcome := .sendFailed e }
          | .ok _id => { sends := [req], outcome := .emailSent recipientEmail }
        else
          { sends := [], outcome := .sendSkipped recipientEmail }

/-! Concrete sample data used by witnesses and counterexamples. -/

/-- Alert whose fireTime parses to a valid hour and minute. -/
def cexGood : Alert :=
  { id := "a2", userId := "u1", alertTime := "08:00", pollutant := "aqi",
    threshold := 100, alertEmail := "good@example.com" }

/-- Alert whose fireTime has no colon, so the split leaves the minute
undefined and the built pattern is invalid. -/
def cexBad : Alert :=
  { id := "a1", userId := "u1", alertTime := "garbage", pollutant := "aqi",
    threshold := 100, alertEmail := "bad@example.com" }

/-- Database row of an alert whose owner has a name. -/
def cexRow : DbAlertRow :=
  { userName := some "Chirag", alertEmail := "row@example.com",
    threshold := 100, alertTime := "08:00" }

/-- Database row of an alert whose owner has no name. -/
def cexRowNoName : DbAlertRow :=
  { userName := none, alertEmail := "row@example.com",
    threshold := 100, alertTime := "08:00" }

/-- The row cexRow after a store-side edit of recipient, threshold and
fire time, the owner name untouched. -/
def cexRowEdited : DbAlertRow :=
  { userName := some "Chirag", alertEmail := "edited@example.com",
    threshold := 999, alertTime := "23:59" }

/-- Firing environment in which every external step succeeds. -/
def envHappy : RunnerEnv :=
  { dbLookup := .ok (some cexRow), fetchOutcome := .payload (some [⟨⟨150⟩⟩]),
    resendConfigured := true, sendOutcome := .ok "re_123" }

/-- Creation request carrying the threshold string "-5". -/
def reqNeg : AlertRequest :=
  { alertTime := .vstr "08:00", pollutant := .vstr "aqi",
    threshold := .vstr "-5", alertEmail := .vstr "a@b.c" }

/-- Creation request carrying the threshold string "0". -/
def reqZeroStr : AlertRequest :=
  { alertTime := .vstr "08:00", pollutant := .vstr "aqi",
    threshold := .vstr "0", alertEmail := .vstr "a@b.c" }

/-- Creation request carrying the threshold number 0. -/
def reqZeroNum : AlertRequest :=
  { alertTime := .vstr "08:00", pollutant := .vstr "aqi",
    threshold := .vnum 0, alertEmail := .vstr "a@b.c" }

/-! Helper lemmas shared by the claim theorems. -/

/-- A middle piece of a nine-way string concatenation, at the fourth
position, is an infix of the character list of the whole. -/
theorem substr_pos4 (p1 u p2 x p3 y p4 t p5 : String) :
    x.toList <:+: (p1 ++ u ++ p2 ++ x ++ p3 ++ y ++ p4 ++ t ++ p5).toList := by
  refine ⟨(p1 ++ u ++ p2).toList, (p3 ++ y ++ p4 ++ t ++ p5).toList, ?_⟩
  simp [String.toList, String.data_append, List.append_assoc]

/-- A middle piece of a nine-way string concatenation, at the sixth
position, is an infix of the character list of the whole. -/
theorem substr_pos6 (p1 u p2 x p3 y p4 t p5 : String) :
    y.toList <:+: (p1 ++ u ++ p2 ++ x ++ p3 ++ y ++ p4 ++ t ++ p5).toList := by
  refine ⟨(p1 ++ u ++ p2 ++ x ++ p3).toList, (p4 ++ t ++ p5).toList, ?_⟩
  simp [String.toList, String.data_append, List.append_assoc]

/-- Stopping every task leaves no running task in the registry. -/
theorem activeTasks_stopAll (st : SchedulerState) :
    (stopAll st).activeTasks = [] := by
  simp [stopAll, SchedulerState.activeTasks, List.filter_map]

/-- Tasks freshly made by mkTask are all running, so filtering for the
running flag keeps them all. -/
theorem filter_running_map_mkTask (l : List Alert) :
    ((l.map mkTask).filter (fun t => t.running)) = l.map mkTask := by
  induction l with
  | nil => rfl
  | cons a rest ih => simp [mkTask, List.filter, ih]

/-- Scheduling a list of alerts that all have well-formed fire times
appends one fresh task per alert, in order, and escapes no error. -/
theorem scheduleAll_ok (st : SchedulerState) (alerts : List Alert)
    (h : ∀ a ∈ alerts, wellFormedFireTime a = true) :
    scheduleAll st alerts = ({ tasks := st.tasks ++ alerts.map mkTask }, none) := by
  induction alerts generalizing st with
  | nil => simp [scheduleAll]
  | cons a rest ih =>
    have ha : wellFormedFireTime a = true := h a (List.mem_cons_self a rest)
    have hrest : ∀ b ∈ rest, wellFormedFireTime b = true :=
      fun b hb => h b (List.mem_cons_of_mem a hb)
    simp [scheduleAll, ha, ih _ hrest, List.append_assoc]

/-- Scheduling a list whose first ill-formed alert is bad registers the
tasks of the well-formed prefix, then the throw of cron.schedule escapes:
nothing after bad is registered. -/
theorem scheduleAll_stuck (st : SchedulerState) (pre post : List Alert) (bad : Alert)
    (hpre : ∀ a ∈ pre, wellFormedFireTime a = true)
    (hbad : wellFormedFireTime bad = false) :
    scheduleAll st (pre ++ bad :: post)
      = ({ tasks := st.tasks ++ pre.map mkTask },
         some (cronPatternOf bad ++ " is not a valid cron expression")) := by
  induction pre generalizing st with
  | nil => simp [scheduleAll, hbad]
  | cons a rest ih =>
    have ha : wellFormedFireTime a = true := hpre a (List.mem_cons_self a rest)
    have hrest : ∀ b ∈ rest, wellFormedFireTime b = true :=
      fun b hb => hpre b (List.mem_cons_of_mem a hb)
    simp [scheduleAll, ha, ih _ hrest, List.append_assoc]

/-- Evaluation of parseFloat on the string "-5". -/
theorem jsParseFloat_neg5 : jsParseFloat (JsValue.vstr "-5") = JsNumber.finite (-5) := by
  show parseFloatChars "-5".toList = JsNumber.finite (-5)
  have h : "-5".toList = ['-', '5'] := rfl
  rw [h]
  simp +decide [parseFloatChars, digitsVal]

/-- Evaluation of parseFloat on the string "0". -/
theorem jsParseFloat_zero : jsParseFloat (JsValue.vstr "0") = JsNumber.finite 0 := by
  show parseFloatChars "0".toList = JsNumber.finite 0
  have h : "0".toList = ['0'] := rfl
  rw [h]
  simp +decide [parseFloatChars, digitsVal]

/-- Evaluation of the creation handler on the request with threshold
string "-5". -/
theorem postAlert_reqNeg :
    postAlert "u1" reqNeg
      = .ok { userId := "u1", alertTime := .vstr "08:00", pollutant := .vstr "aqi",
              threshold := .finite (-5), alertEmail := .vstr "a@b.c" } := by
  unfold postAlert
  rw [if_pos (by decide)]
  rw [show reqNeg.threshold = JsValue.vstr "-5" from rfl, jsParseFloat_neg5]
  rfl

/-- Evaluation of the creation handler on the request with threshold
string "0". -/
theorem postAlert_reqZeroStr :
    postAlert "u1" reqZeroStr
      = .ok { userId := "u1", alertTime := .vstr "08:00", pollutant := .vstr "aqi",
              threshold := .finite 0, alertEmail := .vstr "a@b.c" } := by
  unfold postAlert
  rw [if_pos (by decide)]
  rw [show reqZeroStr.threshold = JsValue.vstr "0" from rfl, jsParseFloat_zero]
  rfl

/-! Claim theorems. -/

/-- C1: the evaluation step of a firing produces triggered = true exactly
when the pollution index strictly exceeds the threshold; at equality the
verdict is not triggered; and in both branches the body text contains the
numeric index and the threshold. -/
theorem C1_evaluate_strict_threshold (u t : String) (idx : ℤ) (th : ℚ) :
    (evaluate u t idx th).triggered = decide ((idx : ℚ) > th)
  ∧ (evaluate u t idx (idx : ℚ)).triggered = false
  ∧ (jsIntStr idx).toList <:+: (evaluate u t idx th).body.toList
  ∧ (numStr th).toList <:+: (evaluate u t idx th).body.toList := by
  refine ⟨?_, ?_, ?_, ?_⟩
  · by_cases h : (idx : ℚ) > th <;> simp [evaluate, h]
  · simp [evaluate]
  · unfold evaluate
    split <;> exact substr_pos4 ..
  · unfold evaluate
    split <;> exact substr_pos6 ..

/-- C9 counterexample: the creation request with threshold string "-5"
passes the truthiness validation and is stored with the negative
threshold -5, violating the finite-and-non-negative invariant. -/
theorem C9_counterexample :
    postAlert "u1" reqNeg
      = .ok { userId := "u1", alertTime := .vstr "08:00", pollutant := .vstr "aqi",
              threshold := .finite (-5), alertEmail := .vstr "a@b.c" }
  ∧ ((-5 : ℚ) < 0) := by
  exact ⟨postAlert_reqNeg, by norm_num⟩

/-- C9 amended: every request accepted by the creation handler stores
threshold parseFloat of the raw threshold field, with no finiteness or
sign check performed, so negative and NaN thresholds are storable. -/
theorem C9_threshold_unchecked (u : String) (req : AlertRequest) (st : StoredAlert)
    (h : postAlert u req = .ok st) :
    st.threshold = jsParseFloat req.threshold := by
  unfold postAlert at h
  split at h
  · cases h
    rfl
  · cases h

/-- C9 witness: the amended theorem applied to the accepted request with
threshold string "-5". -/
theorem C9_threshold_unchecked_witness :
    (StoredAlert.mk "u1" (.vstr "08:00") (.vstr "aqi") (.finite (-5)) (.vstr "a@b.c")).threshold
      = jsParseFloat reqNeg.threshold :=
  C9_threshold_unchecked "u1" reqNeg _ postAlert_reqNeg

/-- C10 counterexample: the truthy threshold string "0" is accepted and
stores a rule with threshold exactly 0, although the claim states no such
rule can ever be created through this interface. -/
theorem C10_counterexample :
    postAlert "u1" reqZeroStr
      = .ok { userId := "u1", alertTime := .vstr "08:00", pollutant := .vstr "aqi",
              threshold := .finite 0, alertEmail := .vstr "a@b.c" } :=
  postAlert_reqZeroStr

/-- C10 amended: any request whose threshold field is falsy — the number
0, the empty string, null, undefined or NaN — is rejected with the
missing-details error before any rule is stored; a truthy string that
parses to 0 is however accepted. -/
theorem C10_falsy_threshold_rejected (u : String) (req : AlertRequest)
    (h : req.threshold.truthy = false) :
    postAlert u req = .error missingDetailsMsg := by
  unfold postAlert
  simp [h]

/-- C10 witness: the amended theorem applied to the request whose
threshold is the number 0. -/
theorem C10_falsy_threshold_rejected_witness :
    postAlert "u1" reqZeroNum = .error missingDetailsMsg :=
  C10_falsy_threshold_rejected "u1" reqZeroNum rfl

/-- C2 counterexample: rebuilding from the rule list with the malformed
alert first and a well-formed alert second does not skip the malformed
rule and schedule the rest — cron.schedule throws on the malformed
pattern and the well-formed rule never gets a timer. -/
theorem C2_counterexample :
    (setupCronJobs ⟨[]⟩ (.ok [cexBad, cexGood])).1.activeTasks = []
  ∧ (setupCronJobs ⟨[]⟩ (.ok [cexBad, cexGood])).2
      = some "undefined garbage * * * is not a valid cron expression" := by
  exact ⟨rfl, rfl⟩

/-- C2 amended: a rule whose fireTime does not yield a valid cron pattern
makes timer registration throw, aborting the rebuild at that rule: the
well-formed rules listed before it are scheduled, the malformed rule and
every rule after it are not, and no warn-and-skip takes place. -/
theorem C2_malformed_fireTime_aborts (st : SchedulerState)
    (pre post : List Alert) (bad : Alert)
    (hpre : ∀ a ∈ pre, wellFormedFireTime a = true)
    (hbad : wellFormedFireTime bad = false) :
    setupCronJobs st (.ok (pre ++ bad :: post))
      = ({ tasks := (stopAll st).tasks ++ pre.map mkTask },
         some (cronPatternOf bad ++ " is not a valid cron expression")) := by
  unfold setupCronJobs
  exact scheduleAll_stuck (stopAll st) pre post bad hpre hbad

/-- C2 witness: the amended theorem applied to the rule list holding the
well-formed alert first and the malformed alert second. -/
theorem C2_malformed_fireTime_aborts_witness :
    setupCronJobs ⟨[]⟩ (.ok ([cexGood] ++ cexBad :: []))
      = ({ tasks := (stopAll ⟨[]⟩).tasks ++ [cexGood].map mkTask },
         some (cronPatternOf cexBad ++ " is not a valid cron expression")) :=
  C2_malformed_fireTime_aborts ⟨[]⟩ [cexGood] [] cexBad (by decide) (by decide)

/-- C3 counterexample: a rebuild whose rule listing fails is run against
a registry holding one running timer; afterwards no timer is active, so
the previous timer set is not left in place and active. -/
theorem C3_counterexample :
    (setupCronJobs ⟨[mkTask cexGood]⟩ (.error "StoreUnavailable")).1.activeTasks = []
  ∧ (setupCronJobs ⟨[mkTask cexGood]⟩ (.error "StoreUnavailable")).2
      = some "StoreUnavailable" := by
  exact ⟨rfl, rfl⟩

/-- C3 amended: when the rule listing fails the rebuild aborts with the
store error escaping and installs no new timer, but the stop-all step has
already run before the listing, so every previously installed timer is
stopped and the active schedule is empty, not preserved. -/
theorem C3_store_failure_after_stopAll (st : SchedulerState) (e : String) :
    setupCronJobs st (.error e) = (stopAll st, some e)
  ∧ (setupCronJobs st (.error e)).1.activeTasks = [] := by
  exact ⟨rfl, activeTasks_stopAll st⟩

/-- C6 counterexample: rebuilding from the list with the malformed alert
first leaves zero active timers although one listed rule has a
well-formed fireTime, so the count of active timers does not equal the
count of rules with malformed ones excluded. -/
theorem C6_counterexample :
    (setupCronJobs ⟨[]⟩ (.ok [cexBad, cexGood])).1.activeTasks.length = 0
  ∧ ([cexBad, cexGood].filter wellFormedFireTime).length = 1 := by
  exact ⟨rfl, rfl⟩

/-- C6 amended: after a rebuild whose listed rules all have well-formed
fireTime, no error escapes and the active timers are exactly one fresh
timer per listed rule, in order; a second rebuild with the unchanged list
again leaves exactly one active timer per rule, the timers of the first
round all stopped. When the list contains a malformed rule, scheduling
aborts there and only the rules listed before it receive timers. -/
theorem C6_one_active_timer_per_rule (st : SchedulerState) (alerts : List Alert)
    (h : ∀ a ∈ alerts, wellFormedFireTime a = true) :
    (setupCronJobs st (.ok alerts)).2 = none
  ∧ (setupCronJobs st (.ok alerts)).1.activeTasks = alerts.map mkTask
  ∧ (setupCronJobs (setupCronJobs st (.ok alerts)).1 (.ok alerts)).2 = none
  ∧ (setupCronJobs (setupCronJobs st (.ok alerts)).1 (.ok alerts)).1.activeTasks
      = alerts.map mkTask := by
  have key : ∀ st2 : SchedulerState,
      setupCronJobs st2 (.ok alerts)
        = ({ tasks := (stopAll st2).tasks ++ alerts.map mkTask }, none) := by
    intro st2
    unfold setupCronJobs
    exact scheduleAll_ok (stopAll st2) alerts h
  have act : ∀ st2 : SchedulerState,
      (SchedulerState.mk ((stopAll st2).tasks ++ alerts.map mkTask)).activeTasks
        = alerts.map mkTask := by
    intro st2
    have h1 : (stopAll st2).activeTasks = [] := activeTasks_stopAll st2
    simp only [SchedulerState.activeTasks, List.filter_append] at h1 ⊢
    rw [h1, filter_running_map_mkTask, List.nil_append]
  refine ⟨?_, ?_, ?_, ?_⟩
  · rw [key st]
  · rw [key st]
    exact act st
  · rw [key st, key _]
  · rw [key st, key _]
    exact act _

/-- C6 witness: the amended theorem applied to the singleton list holding
the well-formed alert, starting from the empty registry. -/
theorem C6_one_active_timer_per_rule_witness :
    (setupCronJobs ⟨[]⟩ (.ok [cexGood])).1.activeTasks = [cexGood].map mkTask :=
  (C6_one_active_timer_per_rule ⟨[]⟩ [cexGood] (by decide)).2.1

/-- C4 counterexample: a firing whose fetch delivers a successfully
parsed payload whose list is empty — a shape mismatch — throws an
uncaught TypeError out of the check instead of aborting after logging, so
the firing does crash (still with zero notifier invocations). -/
theorem C4_counterexample :
    (checkAqiAndSendAlert
        { dbLookup := .ok (some cexRow), fetchOutcome := .payload (some []),
          resendConfigured := true, sendOutcome := .ok "re_123" } cexGood).outcome
      = .threw "TypeError: Cannot read properties of undefined (reading main)"
  ∧ (checkAqiAndSendAlert
        { dbLookup := .ok (some cexRow), fetchOutcome := .payload (some []),
          resendConfigured := true, sendOutcome := .ok "re_123" } cexGood).sends
      = [] := by
  exact ⟨rfl, rfl⟩

/-- C4 amended: a network error, a non-success response and a JSON parse
failure are caught inside the try block, so the firing aborts after
logging with zero notifier invocations and no exception; but a payload
that parses while lacking the expected list structure throws an uncaught
TypeError out of the firing — also with zero notifier invocations. -/
theorem C4_fetch_failure_isolation (env : RunnerEnv) (a : Alert) (row : DbAlertRow)
    (hdb : env.dbLookup = .ok (some row)) :
    (∀ m, env.fetchOutcome = .networkError m →
      checkAqiAndSendAlert env a = ⟨[], .fetchFailed m⟩)
  ∧ (∀ c, env.fetchOutcome = .badStatus c →
      checkAqiAndSendAlert env a
        = ⟨[], .fetchFailed ("OpenWeather API fetch failed with status "
                              ++ toString c ++ ".")⟩)
  ∧ (∀ m, env.fetchOutcome = .jsonError m →
      checkAqiAndSendAlert env a = ⟨[], .fetchFailed m⟩)
  ∧ (env.fetchOutcome = .payload none →
      checkAqiAndSendAlert env a
        = ⟨[], .threw "TypeError: Cannot read properties of undefined (reading 0)"⟩)
  ∧ (env.fetchOutcome = .payload (some []) →
      checkAqiAndSendAlert env a
        = ⟨[], .threw "TypeError: Cannot read properties of undefined (reading main)"⟩) := by
  refine ⟨?_, ?_, ?_, ?_, ?_⟩
  · intro m hm
    simp [checkAqiAndSendAlert, hdb, hm, fetchAqi]
  · intro c hc
    simp [checkAqiAndSendAlert, hdb, hc, fetchAqi]
  · intro m hm
    simp [checkAqiAndSendAlert, hdb, hm, fetchAqi]
  · intro hp
    simp [checkAqiAndSendAlert, hdb, hp, fetchAqi, extractAqi]
  · intro hp
    simp [checkAqiAndSendAlert, hdb, hp, fetchAqi, extractAqi]

/-- C4 witness: the amended theorem applied to a firing whose fetch
rejects with a network error. -/
theorem C4_fetch_failure_isolation_witness :
    checkAqiAndSendAlert
        { dbLookup := .ok (some cexRow), fetchOutcome := .networkError "ECONNREFUSED",
          resendConfigured := true, sendOutcome := .ok "re_123" } cexGood
      = ⟨[], .fetchFailed "ECONNREFUSED"⟩ :=
  (C4_fetch_failure_isolation _ cexGood cexRow rfl).1 "ECONNREFUSED" rfl

/-- C5 counterexample: a firing whose row lookup returns nothing aborts
at once with the not-found warning and zero notifier invocations, even
though the reading is available and a notifier is configured — it does
not continue with a placeholder name. -/
theorem C5_counterexample :
    (checkAqiAndSendAlert
        { dbLookup := .ok none, fetchOutcome := .payload (some [⟨⟨150⟩⟩]),
          resendConfigured := true, sendOutcome := .ok "re_123" } cexGood).outcome
      = .alertNotFound
  ∧ (checkAqiAndSendAlert
        { dbLookup := .ok none, fetchOutcome := .payload (some [⟨⟨150⟩⟩]),
          resendConfigured := true, sendOutcome := .ok "re_123" } cexGood).sends
      = [] := by
  exact ⟨rfl, rfl⟩

/-- C5 amended: when the lookup returns a row whose owner name is missing
or empty, the firing continues exactly as with the placeholder name User
through fetch, evaluation and notification; but when the lookup returns
no row the firing aborts with a warning before fetching and sends
nothing, and a lookup rejection propagates as an uncaught exception. -/
theorem C5_salutation_partial_bestEffort (env : RunnerEnv) (a : Alert) (row : DbAlertRow)
    (hname : row.userName = none ∨ row.userName = some "") :
    (env.dbLookup = .ok (some row) →
      checkAqiAndSendAlert env a
        = checkAqiAndSendAlert
            { env with dbLookup := .ok (some { row with userName := some "User" }) } a)
  ∧ (env.dbLookup = .ok none → checkAqiAndSendAlert env a = ⟨[], .alertNotFound⟩)
  ∧ (∀ e, env.dbLookup = .error e → checkAqiAndSendAlert env a = ⟨[], .threw e⟩) := by
  refine ⟨?_, ?_, ?_⟩
  · intro hdb
    have hjs : jsOrDefault row.userName "User" = jsOrDefault (some "User") "User" := by
      rcases hname with h | h <;> simp [h, jsOrDefault]
    simp [checkAqiAndSendAlert, hdb, hjs]
  · intro hdb
    simp [checkAqiAndSendAlert, hdb]
  · intro e hdb
    simp [checkAqiAndSendAlert, hdb]

/-- C5 witness: the amended theorem applied to a firing whose row lookup
returns a row carrying no owner name. -/
theorem C5_salutation_partial_bestEffort_witness :
    checkAqiAndSendAlert
        { dbLookup := .ok (some cexRowNoName), fetchOutcome := .payload (some [⟨⟨150⟩⟩]),
          resendConfigured := true, sendOutcome := .ok "re_123" } cexGood
      = checkAqiAndSendAlert
          { dbLookup := .ok (some { cexRowNoName with userName := some "User" }),
            fetchOutcome := .payload (some [⟨⟨150⟩⟩]),
            resendConfigured := true, sendOutcome := .ok "re_123" } cexGood :=
  (C5_salutation_partial_bestEffort _ cexGood cexRowNoName (Or.inl rfl)).1 rfl

/-- C7: a firing that reaches the notify step attempts, when a notifier
is configured, exactly one send whose recipient is the alertEmail of the
rule snapshot and whose subject and html are those of the verdict; a
reported send error ends the firing as a logged failure without retry; an
unconfigured notifier yields a logged skip with no send; and every
firing, whatever its environment, attempts at most one send. -/
theorem C7_notify_dispatch (env : RunnerEnv) (a : Alert) (row : DbAlertRow)
    (entry : AqiEntry) (rest : List AqiEntry)
    (hdb : env.dbLookup = .ok (some row))
    (hf : env.fetchOutcome = .payload (some (entry :: rest))) :
    (env.resendConfigured = true →
      (checkAqiAndSendAlert env a).sends
        = [{ toAddr := a.alertEmail
             subject := (evaluate (jsOrDefault row.userName "User") a.alertTime
                          entry.main.aqi a.threshold).subject
             html := (evaluate (jsOrDefault row.userName "User") a.alertTime
                          entry.main.aqi a.threshold).body }]
      ∧ (∀ e, env.sendOutcome = .error e →
          (checkAqiAndSendAlert env a).outcome = .sendFailed e)
      ∧ (∀ i, env.sendOutcome = .ok i →
          (checkAqiAndSendAlert env a).outcome = .emailSent a.alertEmail))
  ∧ (env.resendConfigured = false →
      (checkAqiAndSendAlert env a).sends = []
      ∧ (checkAqiAndSendAlert env a).outcome = .sendSkipped a.alertEmail)
  ∧ (∀ env2 : RunnerEnv, (checkAqiAndSendAlert env2 a).sends.length ≤ 1) := by
  refine ⟨?_, ?_, ?_⟩
  · intro hrc
    refine ⟨?_, ?_, ?_⟩
    · rcases hso : env.sendOutcome with e | i <;>
        simp [checkAqiAndSendAlert, hdb, hf, hrc, hso, fetchAqi, extractAqi]
    · intro e hso
      simp [checkAqiAndSendAlert, hdb, hf, hrc, hso, fetchAqi, extractAqi]
    · intro i hso
      simp [checkAqiAndSendAlert, hdb, hf, hrc, hso, fetchAqi, extractAqi]
  · intro hrc
    constructor <;> simp [checkAqiAndSendAlert, hdb, hf, hrc, fetchAqi, extractAqi]
  · intro env2
    rcases env2 with ⟨db, f, rc, so⟩
    rcases db with e | row2
    · simp [checkAqiAndSendAlert]
    rcases row2 with _ | row2
    · simp [checkAqiAndSendAlert]
    rcases f with m | c | m | l
    · simp [checkAqiAndSendAlert, fetchAqi]
    · simp [checkAqiAndSendAlert, fetchAqi]
    · simp [checkAqiAndSendAlert, fetchAqi]
    rcases l with _ | l
    · simp [checkAqiAndSendAlert, fetchAqi, extractAqi]
    rcases l with _ | ⟨entry2, rest2⟩
    · simp [checkAqiAndSendAlert, fetchAqi, extractAqi]
    rcases rc with _ | _
    · simp [checkAqiAndSendAlert, fetchAqi, extractAqi]
    rcases so with e | i <;> simp [checkAqiAndSendAlert, fetchAqi, extractAqi]

/-- C7 witness: the theorem applied to the all-success firing
environment, projecting the sent-exactly-once outcome. -/
theorem C7_notify_dispatch_witness :
    (checkAqiAndSendAlert envHappy cexGood).outcome = .emailSent cexGood.alertEmail :=
  (((C7_notify_dispatch envHappy cexGood cexRow ⟨⟨150⟩⟩ [] rfl rfl).1) rfl).2.2 "re_123" rfl

/-- C8: a firing reads threshold and recipient only off the rule snapshot
captured at rebuild time: two firings over database rows that agree on
the owner name but differ arbitrarily in store-side edits to threshold,
recipient or fire time behave identically, and every attempted send goes
to the alertEmail of the snapshot. -/
theorem C8_snapshot_noninterference (env : RunnerEnv) (a : Alert) (r1 r2 : DbAlertRow)
    (hname : r1.userName = r2.userName) :
    checkAqiAndSendAlert { env with dbLookup := .ok (some r1) } a
      = checkAqiAndSendAlert { env with dbLookup := .ok (some r2) } a
  ∧ (∀ s ∈ (checkAqiAndSendAlert env a).sends, s.toAddr = a.alertEmail) := by
  constructor
  · simp [checkAqiAndSendAlert, hname]
  · intro s hs
    rcases env with ⟨db, f, rc, so⟩
    rcases db with e | row2
    · simp [checkAqiAndSendAlert] at hs
    rcases row2 with _ | row2
    · simp [checkAqiAndSendAlert] at hs
    rcases f with m | c | m | l
    · simp [checkAqiAndSendAlert, fetchAqi] at hs
    · simp [checkAqiAndSendAlert, fetchAqi] at hs
    · simp [checkAqiAndSendAlert, fetchAqi] at hs
    rcases l with _ | l
    · simp [checkAqiAndSendAlert, fetchAqi, extractAqi] at hs
    rcases l with _ | ⟨entry2, rest2⟩
    · simp [checkAqiAndSendAlert, fetchAqi, extractAqi] at hs
    rcases rc with _ | _
    · simp [checkAqiAndSendAlert, fetchAqi, extractAqi] at hs
    rcases so with e | i <;>
      · simp [checkAqiAndSendAlert, fetchAqi, extractAqi] at hs
        simp [hs]

/-- C8 witness: the theorem applied to the all-success environment and
the rows before and after a store-side edit of recipient, threshold and
fire time. -/
theorem C8_snapshot_noninterference_witness :
    checkAqiAndSendAlert { envHappy with dbLookup := .ok (some cexRow) } cexGood
      = checkAqiAndSendAlert { envHappy with dbLookup := .ok (some cexRowEdited) } cexGood :=
  (C8_snapshot_noninterference envHappy cexGood cexRow cexRowEdited rfl).1

end AqiServer
